import Mathlib

/-!
# Verification of the futbet-app normalization + metrics pipeline

Shallow embedding of `src/app.py` (a Streamlit dashboard over a spreadsheet
of football-betting predictions).  Rows of the loaded DataFrame are embedded
as `Row`; the dynamic column-detection of the script (`fecha_col`,
`equipo_cols`, `liga_cols`, `resultado_cols`, `profit_cols`) is embedded as
boolean / option flags in `Ctx`.  Profit and odds are embedded as `ℚ`
(pandas floats carrying exact decimal data in all inputs of interest);
dates as a calendar `Date` with a day-ordinal conversion mirroring the
timestamp arithmetic that pandas `to_period("M"/"W")` performs.
-/

namespace Futbet

set_option maxRecDepth 8000

/-- A calendar date (timezone-naive), as carried by the `fecha` column. -/
structure Date where
  y : Nat
  m : Nat
  d : Nat
deriving DecidableEq

/-- Day ordinal of a civil date (days since 0000-03-01), the standard
civil-calendar conversion; valid for years ≥ 1.  `Date.toDays ⟨1970,1,1⟩ =
719468`.  This mirrors the linear timestamp arithmetic pandas uses for
period bucketing and date comparison. -/
def Date.toDays (dt : Date) : Nat :=
  let yAdj := if dt.m ≤ 2 then dt.y - 1 else dt.y
  let era := yAdj / 400
  let yoe := yAdj % 400
  let mp := if 2 < dt.m then dt.m - 3 else dt.m + 9
  let doy := (153 * mp + 2) / 5 + dt.d - 1
  let doe := yoe * 365 + yoe / 4 - yoe / 100 + doy
  era * 146097 + doe

/-- Day ordinal of the Monday starting the week of day `n` (pandas
`to_period("W")` buckets into Monday-anchored weeks and `.start_time`
returns that Monday).  Day ordinals with `toDays` satisfy: Mondays are
exactly the `n` with `(n + 2) % 7 = 0`. -/
def weekStartN (n : Nat) : Nat := n - (n + 2) % 7

/-- One row of the loaded DataFrame, restricted to the columns the script
detects and reads.  `none` stands for a missing cell (NaN/NaT).  `status`
is the lifecycle label of the spec's Canonical Record; `src/app.py` never
reads it (it detects no status column), it is carried to state the claims
that mention it. -/
structure Row where
  fecha : Option Date
  equipoLocal : Option String
  equipoVisitante : Option String
  liga : Option String
  prediccion : Option String
  resultado : Option String
  cuota : Option ℚ
  profit : Option ℚ
  status : String
deriving DecidableEq

/-- A row with every cell empty, used to build concrete examples. -/
def baseRow : Row :=
  { fecha := none, equipoLocal := none, equipoVisitante := none,
    liga := none, prediccion := none, resultado := none,
    cuota := none, profit := none, status := "" }

/-- Hit markers of line 116: `['Acierto', 'Win', 'Green', '✅']`. -/
def winMarkers : List String := ["Acierto", "Win", "Green", "✅"]

/-- Miss markers of line 117: `['Fallo', 'Loss', 'Red', '❌']`. -/
def lossMarkers : List String := ["Fallo", "Loss", "Red", "❌"]

/-- Voided-result markers of line 100: `['Anulado', 'Void', 'Cancelled']`. -/
def anulados : List String := ["Anulado", "Void", "Cancelled"]

/-- pandas `Series.isin` on an optional cell: a missing cell is in no set. -/
def containsOpt (l : List String) (s : Option String) : Bool :=
  match s with
  | some v => l.contains v
  | none => false

/-- Whether a row's result is one of the voided markers (line 100). -/
def esAnulado (r : Row) : Bool := containsOpt anulados r.resultado

/-!
## Loader (`cargar_datos`, lines 14-40)

The I/O of `pd.read_excel` is abstracted as an `Except`: `.ok` carries the
parsed rows together with the detected date column (`fecha_col`, line
19-24), `.error` is the raised exception caught at line 32.
-/

/-- Result of `cargar_datos` plus the warning it may emit (lines 29, 33). -/
structure LoadResult where
  df : List Row
  fecha_col : Option String
  warning : Option String
deriving DecidableEq

/-- Embeds `cargar_datos` (lines 14-34): on a parse failure the exception
is caught, a warning naming the failure is emitted, and an empty DataFrame
with no date column is returned.  On success the rows are returned, with a
warning only when no date column was found. -/
def cargar_datos (src : Except String (List Row × Option String)) : LoadResult :=
  match src with
  | .ok (rows, fcol) =>
      { df := rows, fecha_col := fcol,
        warning := if fcol.isNone
          then some "No se encontró columna de fecha en el archivo"
          else none }
  | .error e =>
      { df := [], fecha_col := none,
        warning := some ("No se pudo cargar el archivo predictions_tracker.xlsx: " ++ e) }

/-!
## Filter pipeline (lines 47-100)
-/

/-- The column-detection flags and sidebar filter choices the script runs
under: `hasFecha` = a date column was found; `fechaInicio`/`fechaFin` the
chosen inclusive day-ordinal bounds (lines 52-54); `equipo` the chosen
team (`none` = "Todos", lines 69-74); `ligas` the multiselect choice
(`none` = no league column detected, lines 81-89); `hasResult` = a result
column was detected (lines 93, 99). -/
structure Ctx where
  hasFecha : Bool
  fechaInicio : Nat
  fechaFin : Nat
  equipo : Option String
  ligas : Option (List String)
  hasResult : Bool
deriving DecidableEq

/-- Date filter (lines 51-57): when a date column exists, keep rows whose
date lies between the inclusive bounds; a missing date compares false on
both sides (pandas NaT), so it is excluded. -/
def filtroFecha (c : Ctx) (rows : List Row) : List Row :=
  if c.hasFecha then
    rows.filter (fun r =>
      match r.fecha with
      | some dt => decide (c.fechaInicio ≤ dt.toDays) && decide (dt.toDays ≤ c.fechaFin)
      | none => false)
  else rows

/-- Team filter (lines 74-78): when a team is selected, keep rows where
any team column equals it (the script ORs an equality series per team
column; in the canonical shape these are the local and visiting teams). -/
def filtroEquipo (c : Ctx) (rows : List Row) : List Row :=
  match c.equipo with
  | none => rows
  | some t => rows.filter (fun r =>
      (r.equipoLocal == some t) || (r.equipoVisitante == some t))

/-- League filter (lines 81-90): applied only when a league column exists
(`sel = some _`) and the multiselect is non-empty (`if liga_seleccionada:`
— an empty selection is falsy and filters nothing); membership is pandas
`isin`, false on a missing league cell. -/
def filtroLiga (sel : Option (List String)) (rows : List Row) : List Row :=
  match sel with
  | none => rows
  | some l => if l = [] then rows
      else rows.filter (fun r => containsOpt l r.liga)

/-- Voided-result exclusion (lines 98-100): when a result column was
detected, drop rows whose result is `Anulado`/`Void`/`Cancelled`. -/
def excluirAnulados (hasResult : Bool) (rows : List Row) : List Row :=
  if hasResult then rows.filter (fun r => !(esAnulado r)) else rows

/-- The filtered record set `df_filtrado` as composed by lines 51-100:
date filter, then team filter, then league filter, then voided-result
exclusion. -/
def df_filtrado (c : Ctx) (rows : List Row) : List Row :=
  excluirAnulados c.hasResult (filtroLiga c.ligas (filtroEquipo c (filtroFecha c rows)))

/-- Modelled from the spec: the status predicate of §4.4's FilterSpec
(`status`: single status value or a "no restriction" sentinel).  No status
filter exists in `src/app.py`; this embeds the spec's words for the claims
that quantify over all four filter dimensions. -/
def filtroStatus (st : Option String) (rows : List Row) : List Row :=
  match st with
  | none => rows
  | some s => rows.filter (fun r => r.status == s)

/-- The date predicate of `filtroFecha` as a per-row boolean. -/
def predFecha (c : Ctx) (r : Row) : Bool :=
  if c.hasFecha then
    match r.fecha with
    | some dt => decide (c.fechaInicio ≤ dt.toDays) && decide (dt.toDays ≤ c.fechaFin)
    | none => false
  else true

/-- The team predicate of `filtroEquipo` as a per-row boolean. -/
def predEquipo (c : Ctx) (r : Row) : Bool :=
  match c.equipo with
  | none => true
  | some t => (r.equipoLocal == some t) || (r.equipoVisitante == some t)

/-- The league predicate of `filtroLiga` as a per-row boolean. -/
def predLiga (sel : Option (List String)) (r : Row) : Bool :=
  match sel with
  | none => true
  | some l => if l = [] then true else containsOpt l r.liga

/-- Modelled from the spec: the status predicate of §4.4 as a per-row
boolean. -/
def predStatus (st : Option String) (r : Row) : Bool :=
  match st with
  | none => true
  | some s => r.status == s

/-- Sequential application of a list of row predicates as successive
DataFrame filters (how the script chains its filter steps). -/
def aplicarFiltros (ps : List (Row → Bool)) (rows : List Row) : List Row :=
  ps.foldl (fun acc p => acc.filter p) rows

/-- The four-dimensional filter pipeline of the spec's FilterSpec: the
script's date, team and league steps followed by the spec-modelled status
step. -/
def pipelineFiltros (c : Ctx) (st : Option String) (rows : List Row) : List Row :=
  filtroStatus st (filtroLiga c.ligas (filtroEquipo c (filtroFecha c rows)))

/-!
## Scalar KPIs (lines 107-134)
-/

/-- `df_validadas` (line 109): `df_filtrado.dropna(subset=[profit])` —
rows with a present profit value.  Note: no status condition of any kind
is applied (the script detects no status column). -/
def df_validadas (rows : List Row) : List Row :=
  rows.filter (fun r => r.profit.isSome)

/-- `total_predicciones` (line 111): `df_validadas.shape[0]`. -/
def total_predicciones (rows : List Row) : Nat :=
  (df_validadas rows).length

/-- `total_unidades` (line 112): sum of the profit column of
`df_validadas`. -/
def total_unidades (rows : List Row) : ℚ :=
  ((df_validadas rows).filterMap (fun r => r.profit)).sum

/-- `yield_total` (line 113): `total_unidades / total_predicciones if
total_predicciones else 0`. -/
def yield_total (rows : List Row) : ℚ :=
  if total_predicciones rows ≠ 0
  then total_unidades rows / (total_predicciones rows : ℚ)
  else 0

/-- The yield percentage as displayed (line 133): `100 * yield_total`
(the 2-decimal display rounding of lines 133/172 is presentation and is
not embedded). -/
def yield_pct (rows : List Row) : ℚ := 100 * yield_total rows

/-- `aciertos_totales` (lines 115-123): when a result column exists,
count validated rows whose result is a win marker; otherwise count
validated rows with strictly positive profit. -/
def aciertos_totales (hasResult : Bool) (rows : List Row) : Nat :=
  if hasResult then
    (df_validadas rows).countP (fun r => containsOpt winMarkers r.resultado)
  else
    (df_validadas rows).countP (fun r =>
      match r.profit with
      | some q => decide (0 < q)
      | none => false)

/-- `fallos_totales` (lines 117, 122): the mirror count with the miss
markers / strictly negative profit. -/
def fallos_totales (hasResult : Bool) (rows : List Row) : Nat :=
  if hasResult then
    (df_validadas rows).countP (fun r => containsOpt lossMarkers r.resultado)
  else
    (df_validadas rows).countP (fun r =>
      match r.profit with
      | some q => decide (q < 0)
      | none => false)

/-- The tri-state hit value each validated row effectively carries under
lines 115-123: with a result column, `some true`/`some false` when the
result is a win/miss marker, `none` otherwise; without one, the sign of
profit, with zero profit giving `none`. -/
def hitState (hasResult : Bool) (r : Row) : Option Bool :=
  if hasResult then
    if containsOpt winMarkers r.resultado then some true
    else if containsOpt lossMarkers r.resultado then some false
    else none
  else
    match r.profit with
    | some q => if 0 < q then some true else if q < 0 then some false else none
    | none => none

/-- `ganancias` (line 125): sum of the strictly positive profits of
`df_validadas`. -/
def ganancias (rows : List Row) : ℚ :=
  (((df_validadas rows).filterMap (fun r => r.profit)).filter (fun q => decide (0 < q))).sum

/-- `perdidas` (line 126): negated sum of the strictly negative profits of
`df_validadas` (hence ≥ 0). -/
def perdidas (rows : List Row) : ℚ :=
  -(((df_validadas rows).filterMap (fun r => r.profit)).filter (fun q => decide (q < 0))).sum

/-- The profit-factor value: a finite rational, or the `float("inf")`
sentinel of line 127. -/
inductive ProfitFactor where
  | val : ℚ → ProfitFactor
  | inf : ProfitFactor
deriving DecidableEq

/-- `profit_factor` (line 127): `ganancias / perdidas if perdidas else
float("inf")` — the infinity sentinel is produced whenever `perdidas`
is zero (falsy), with no separate case for `ganancias` also being zero. -/
def profit_factor (rows : List Row) : ProfitFactor :=
  if perdidas rows = 0 then .inf
  else .val (ganancias rows / perdidas rows)

/-!
## Time rollups (lines 154-233)

Both tabs recompute `df_validadas` from `df_filtrado` and then group with
pandas `groupby`, which sorts group keys ascending and silently drops rows
whose group key is NaT; group keys are embedded as day ordinals.
-/

/-- The validated rows that survive a date-keyed `groupby` (pandas drops
NaT keys from groups). -/
def dfValidadasFecha (rows : List Row) : List Row :=
  (df_validadas rows).filter (fun r => r.fecha.isSome)

/-- Month bucket key (line 162): `to_period("M").to_timestamp()` — the
first day of the row's calendar month, as a day ordinal. -/
def mesKeyRow (r : Row) : Nat :=
  let dt := r.fecha.getD ⟨1, 1, 1⟩
  Date.toDays ⟨dt.y, dt.m, 1⟩

/-- Week bucket key (line 195): `to_period("W").apply(lambda r:
r.start_time)` — the Monday starting the row's week, as a day ordinal. -/
def semanaKeyRow (r : Row) : Nat :=
  weekStartN (r.fecha.getD ⟨1, 1, 1⟩).toDays

/-- pandas `groupby(key)`: the distinct keys in ascending order, each with
the rows carrying it. -/
def groupAgg (key : Row → Nat) (rows : List Row) : List (Nat × List Row) :=
  (List.insertionSort (· ≤ ·) ((rows.map key).dedup)).map
    (fun k => (k, rows.filter (fun r => key r = k)))

/-- Sum of the profit column of a group. -/
def sumProfits (g : List Row) : ℚ :=
  (g.filterMap (fun r => r.profit)).sum

/-- One row of `resumen_mensual` (lines 164-172 before display
formatting): month key, prediction count, units, hits, misses, yield. -/
structure MRow where
  mes : Nat
  predicciones : Nat
  unidades : ℚ
  aciertos : Nat
  fallos : Nat
  yieldPct : ℚ
deriving DecidableEq

/-- `resumen_mensual` (lines 161-172) in the configuration the tab runs
without raising: a result column present (with `resultado_cols` empty the
agg dict of lines 164-167 collapses onto the single profit key and line
170's four column names no longer match, so the source raises there).
Per month bucket: `predicciones` = pandas `count` of non-null profits,
`unidades` = profit sum, `aciertos` = count of win-marker results,
`fallos = predicciones - aciertos` (line 171), `yield` = `unidades /
predicciones * 100` (line 172, display rounding not embedded). -/
def resumen_mensual (rows : List Row) : List MRow :=
  (groupAgg mesKeyRow (dfValidadasFecha rows)).map (fun kg =>
    let pred := kg.2.countP (fun r => r.profit.isSome)
    let uni := sumProfits kg.2
    let aci := kg.2.countP (fun r => containsOpt winMarkers r.resultado)
    { mes := kg.1, predicciones := pred, unidades := uni,
      aciertos := aci, fallos := pred - aci,
      yieldPct := uni / (pred : ℚ) * 100 })

/-- `cumsum` over the weekly (key, units) rows (line 201), threading one
accumulator from the start of the list: each output row carries its key,
its units, and the running total including it. -/
def cumsumAux (acc : ℚ) : List (Nat × ℚ) → List (Nat × ℚ × ℚ)
  | [] => []
  | (k, u) :: t => (k, u, acc + u) :: cumsumAux (acc + u) t

/-- `resumen_semanal` with its `unidades_acumuladas` column (lines
194-201): group validated rows by week start, sum profits per week
(ascending week order), then take the running cumulative sum initialized
once at zero. -/
def resumen_semanal (rows : List Row) : List (Nat × ℚ × ℚ) :=
  cumsumAux 0 ((groupAgg semanaKeyRow (dfValidadasFecha rows)).map
    (fun kg => (kg.1, sumProfits kg.2)))

/-!
## History listing (lines 302-330)
-/

/-- Sort rank for `sort_values(fecha, ascending=False)`: later dates
first, missing dates last (pandas `na_position='last'`). -/
def fechaRank (r : Row) : Nat :=
  match r.fecha with
  | some dt => dt.toDays + 1
  | none => 0

/-- The descending-date order used by the history listing. -/
def ordRel (a b : Row) : Prop := fechaRank b ≤ fechaRank a

instance : DecidableRel ordRel := fun a b => Nat.decLe (fechaRank b) (fechaRank a)

/-- `df_ordenado` (lines 324-328): the filtered rows sorted by date
descending when a date column exists, otherwise in source order (the
column projection of lines 305-322 only hides columns and is not
embedded). -/
def df_ordenado (hasFecha : Bool) (rows : List Row) : List Row :=
  if hasFecha then List.insertionSort ordRel rows else rows

/-!
## Spec-side outcome normalizer (§4.2), for comparison with the code
-/

/-- The outcome vocabulary of spec §4.2. -/
inductive Outcome where
  | home_win | away_win | draw | unknown
deriving DecidableEq

/-- Modelled from the spec: §4.2 `normalize_outcome` — lowercase and trim,
then map through the alias table (`"1"/"h"/"home"/"local"` → home win,
`"2"/"a"/"away"/"visitante"` → away win, `"x"/"draw"/"empate"` → draw),
anything else (or a missing cell) to `unknown`.  No such function exists
in `src/app.py`. -/
def spec_normalize_outcome (s : Option String) : Outcome :=
  match s with
  | none => .unknown
  | some v =>
    let t := v.trim.toLower
    if ["1", "h", "home", "local"].contains t then .home_win
    else if ["2", "a", "away", "visitante"].contains t then .away_win
    else if ["x", "draw", "empate"].contains t then .draw
    else .unknown

/-- Modelled from the spec: §4.2 `normalize_hit` — map correctness markers
across encodings to a tri-state, anything unrecognized to unknown. -/
def spec_normalize_hit (s : Option String) : Option Bool :=
  match s with
  | none => none
  | some v =>
    let t := v.trim.toLower
    if ["acierto", "win", "green", "✅"].contains t then some true
    else if ["fallo", "loss", "red", "❌"].contains t then some false
    else none

/-- Modelled from the spec: the `hit` derivation of §3 as the claims state
it — preferentially an explicit result-correctness marker, otherwise the
comparison of the normalized prediction and result outcomes when both are
known, otherwise unknown. -/
def spec_hit (r : Row) : Option Bool :=
  match spec_normalize_hit r.resultado with
  | some b => some b
  | none =>
    let p := spec_normalize_outcome r.prediccion
    let q := spec_normalize_outcome r.resultado
    if p = .unknown ∨ q = .unknown then none else some (p = q)

/-!
## Concrete record sets used by the claims' examples
-/

/-- Validated records with profits `[+10, +5, -3]` (§8's profit-factor
example). -/
def ejPF1 : List Row :=
  [{ baseRow with profit := some 10, status := "completed" },
   { baseRow with profit := some 5, status := "completed" },
   { baseRow with profit := some (-3), status := "completed" }]

/-- Validated records with profits `[+10, +5]` (no losses). -/
def ejPF2 : List Row :=
  [{ baseRow with profit := some 10, status := "completed" },
   { baseRow with profit := some 5, status := "completed" }]

/-- Three records in three consecutive weeks (Mondays 2024-01-01 =
day 739191, 2024-01-08, 2024-01-15) with profits `[3, -1, 2]`. -/
def ejSemanas : List Row :=
  [{ baseRow with fecha := some ⟨2024, 1, 1⟩, profit := some 3 },
   { baseRow with fecha := some ⟨2024, 1, 8⟩, profit := some (-1) },
   { baseRow with fecha := some ⟨2024, 1, 15⟩, profit := some 2 }]

/-- Two records in the same calendar month (March 2024, whose first day is
day ordinal 739251) with profits `+2` and `-1`. -/
def ejMes : List Row :=
  [{ baseRow with fecha := some ⟨2024, 3, 5⟩, resultado := some "Win", profit := some 2 },
   { baseRow with fecha := some ⟨2024, 3, 20⟩, resultado := some "Fallo", profit := some (-1) }]

/-- Two same-month records, one winning and one with an unrecognized
result marker ("Push" is neither a hit nor a miss marker). -/
def ejMesCx : List Row :=
  [{ baseRow with fecha := some ⟨2024, 3, 5⟩, resultado := some "Win", profit := some 1 },
   { baseRow with fecha := some ⟨2024, 3, 20⟩, resultado := some "Push", profit := some 1 }]

/-- A record whose status is "pending" but whose profit is present. -/
def rowPendiente : Row :=
  { baseRow with fecha := some ⟨2024, 5, 2⟩, profit := some 5, status := "pending" }

/-- A validated record with no result and no prediction, only a positive
profit. -/
def rowSinResultado : Row :=
  { baseRow with fecha := some ⟨2024, 5, 2⟩, profit := some 3, status := "completed" }

/-- A complete, non-voided record inside every filter bound. -/
def rowFiltrable : Row :=
  { baseRow with fecha := some ⟨2024, 5, 2⟩, equipoLocal := some "Betis", equipoVisitante := some "Sevilla", liga := some "LaLiga", resultado := some "Win", profit := some 2, status := "completed" }

/-- A voided record (result "Anulado") otherwise inside every bound. -/
def rowAnulado : Row :=
  { baseRow with fecha := some ⟨2024, 5, 3⟩, equipoLocal := some "Betis", equipoVisitante := some "Girona", liga := some "LaLiga", resultado := some "Anulado", profit := some 0, status := "completed" }

/-- A context with every filter dimension active and wide date bounds. -/
def ctx0 : Ctx :=
  { hasFecha := true, fechaInicio := 700000, fechaFin := 800000,
    equipo := some "Betis", ligas := some ["LaLiga"], hasResult := true }

/-!
## Helper lemmas
-/

/-- The date filter is the filter by its per-row predicate. -/
theorem filtroFecha_eq (c : Ctx) (rows : List Row) :
    filtroFecha c rows = rows.filter (predFecha c) := by
  unfold filtroFecha predFecha
  by_cases h : c.hasFecha
  · simp [h]
  · simp [h]

/-- The team filter is the filter by its per-row predicate. -/
theorem filtroEquipo_eq (c : Ctx) (rows : List Row) :
    filtroEquipo c rows = rows.filter (predEquipo c) := by
  unfold filtroEquipo predEquipo
  cases c.equipo with
  | none => simp
  | some t => rfl

/-- The league filter is the filter by its per-row predicate. -/
theorem filtroLiga_eq (sel : Option (List String)) (rows : List Row) :
    filtroLiga sel rows = rows.filter (predLiga sel) := by
  unfold filtroLiga predLiga
  cases sel with
  | none => simp
  | some l =>
    by_cases h : l = []
    · simp [h]
    · simp [h]

/-- The status filter is the filter by its per-row predicate. -/
theorem filtroStatus_eq (st : Option String) (rows : List Row) :
    filtroStatus st rows = rows.filter (predStatus st) := by
  unfold filtroStatus predStatus
  cases st with
  | none => simp
  | some s => rfl

/-- Chained DataFrame filtering by a list of predicates is one filter by
their conjunction. -/
theorem aplicarFiltros_eq (ps : List (Row → Bool)) (rows : List Row) :
    aplicarFiltros ps rows = rows.filter (fun r => ps.all (fun p => p r)) := by
  induction ps generalizing rows with
  | nil => simp [aplicarFiltros]
  | cons p t ih =>
    show aplicarFiltros t (rows.filter p) = _
    rw [ih, List.filter_filter]
    apply List.filter_congr
    intro r _
    simp [Bool.and_comm]

/-- `List.all` only depends on the predicates up to permutation. -/
theorem all_of_perm {ps qs : List (Row → Bool)} (h : ps.Perm qs) (r : Row) :
    ps.all (fun p => p r) = qs.all (fun p => p r) := by
  rw [Bool.eq_iff_iff]
  simp only [List.all_eq_true]
  constructor
  · intro ha p hp
    exact ha p (h.mem_iff.mpr hp)
  · intro ha p hp
    exact ha p (h.mem_iff.mp hp)

/-- The running-total column: each entry of `cumsumAux acc l` carries the
initial accumulator plus the units of every entry up to and including it. -/
theorem cumsumAux_get (l : List (Nat × ℚ)) :
    ∀ (acc : ℚ) (i : Nat) (h : i < (cumsumAux acc l).length),
      ((cumsumAux acc l).get ⟨i, h⟩).2.2 =
        acc + (((cumsumAux acc l).take (i + 1)).map (fun e => e.2.1)).sum := by
  induction l with
  | nil => intro acc i h; simp [cumsumAux] at h
  | cons hd t ih =>
    obtain ⟨k, u⟩ := hd
    intro acc i h
    cases i with
    | zero => simp [cumsumAux]
    | succ i =>
      have h' : i < (cumsumAux (acc + u) t).length := by
        simpa [cumsumAux] using h
      show ((cumsumAux (acc + u) t).get ⟨i, h'⟩).2.2 =
        acc + ((((k, u, acc + u) :: cumsumAux (acc + u) t).take (i + 2)).map
          (fun e => e.2.1)).sum
      rw [ih (acc + u) i h']
      simp only [List.take_succ_cons, List.map_cons, List.sum_cons]
      ring

/-- `cumsumAux` preserves the keys. -/
theorem cumsumAux_map_fst (l : List (Nat × ℚ)) :
    ∀ acc, (cumsumAux acc l).map (fun e => e.1) = l.map (fun e => e.1) := by
  induction l with
  | nil => intro acc; rfl
  | cons hd t ih =>
    obtain ⟨k, u⟩ := hd
    intro acc
    show k :: (cumsumAux (acc + u) t).map (fun e => e.1) = k :: t.map (fun e => e.1)
    rw [ih]

/-- The keys produced by `groupAgg` are sorted ascending. -/
theorem groupAgg_keys_sorted (key : Row → Nat) (rows : List Row) :
    List.Sorted (· ≤ ·) ((groupAgg key rows).map (fun kg => kg.1)) := by
  unfold groupAgg
  rw [List.map_map]
  have : ((fun kg : Nat × List Row => kg.1) ∘ fun k => (k, rows.filter (fun r => key r = k)))
      = fun k => k := rfl
  rw [this, List.map_id']
  exact List.sorted_insertionSort (· ≤ ·) _

/-- Every key produced by `groupAgg` is the key of some input row, and the
group at a key holds exactly the rows with that key. -/
theorem groupAgg_mem (key : Row → Nat) (rows : List Row) (kg : Nat × List Row)
    (h : kg ∈ groupAgg key rows) :
    (∃ r ∈ rows, key r = kg.1) ∧ kg.2 = rows.filter (fun r => key r = kg.1) := by
  unfold groupAgg at h
  obtain ⟨k, hk, hkEq⟩ := List.mem_map.mp h
  have hk' : k ∈ (rows.map key).dedup := by
    have := (List.perm_insertionSort (· ≤ ·) ((rows.map key).dedup)).mem_iff.mp hk
    exact this
  have hk2 : k ∈ rows.map key := List.mem_dedup.mp hk'
  obtain ⟨r, hr, hrk⟩ := List.mem_map.mp hk2
  subst hkEq
  exact ⟨⟨r, hr, hrk⟩, rfl⟩

/-- Two mutually exclusive predicates count at most the whole list between
them. -/
theorem countP_disjoint_le (p q : Row → Bool) (l : List Row)
    (hpq : ∀ a, p a = true → q a = false) :
    l.countP p + l.countP q ≤ l.length := by
  induction l with
  | nil => simp
  | cons a t ih =>
    rw [List.countP_cons, List.countP_cons, List.length_cons]
    cases hp : p a with
    | true =>
      have hq := hpq a hp
      simp [hp, hq]
      omega
    | false =>
      cases hq : q a with
      | true => simp [hp, hq]; omega
      | false => simp [hp, hq]; omega

/-- A win marker is never a miss marker. -/
theorem winMarkers_not_lossMarkers (s : Option String) :
    containsOpt winMarkers s = true → containsOpt lossMarkers s = false := by
  cases s with
  | none => intro h; exact absurd h (by decide)
  | some v =>
    intro h
    simp only [containsOpt, winMarkers, List.contains_cons, List.contains_nil,
      Bool.or_eq_true, beq_iff_eq, Bool.false_eq_true, or_false] at h
    rcases h with h | h | h | h <;> subst h <;> decide

/-!
## Claim theorems
-/

/-- C1 counterexample: on the empty Validated Record set both `ganancias`
and `perdidas` are zero, yet `profit_factor` is the infinity sentinel —
not the distinct "undefined" sentinel the claim requires for the
gains = losses = 0 case. -/
theorem C1_cx :
    profit_factor [] = ProfitFactor.inf ∧ ganancias [] = 0 ∧ perdidas [] = 0 := by
  with_unfolding_all decide

/-- C1 (amended): `profit_factor` is `ganancias / perdidas` when
`perdidas` is non-zero and the positive-infinity sentinel whenever
`perdidas` is zero, including when `ganancias` is also zero; profits
`[+10, +5, -3]` give gains 15, losses 3 and profit factor 5, and profits
`[+10, +5]` give the infinity sentinel. -/
theorem C1_profit_factor : ∀ rows : List Row,
    (perdidas rows = 0 → profit_factor rows = ProfitFactor.inf) ∧
    (perdidas rows ≠ 0 →
      profit_factor rows = ProfitFactor.val (ganancias rows / perdidas rows)) ∧
    ganancias ejPF1 = 15 ∧ perdidas ejPF1 = 3 ∧
    profit_factor ejPF1 = ProfitFactor.val 5 ∧
    profit_factor ejPF2 = ProfitFactor.inf := by
  intro rows
  refine ⟨?_, ?_, ?_, ?_, ?_, ?_⟩
  · intro h; unfold profit_factor; rw [if_pos h]
  · intro h; unfold profit_factor; rw [if_neg h]
  · with_unfolding_all decide
  · with_unfolding_all decide
  · with_unfolding_all decide
  · with_unfolding_all decide

/-- C1 witness: the amended theorem applied at the `[+10, +5, -3]`
example. -/
theorem C1_witness :
    perdidas ejPF1 ≠ 0 ∧ profit_factor ejPF1 = ProfitFactor.val 5 := by
  have h : perdidas ejPF1 ≠ 0 := by with_unfolding_all decide
  have h2 := (C1_profit_factor ejPF1).2.1 h
  have h3 : ganancias ejPF1 / perdidas ejPF1 = 5 := by with_unfolding_all decide
  exact ⟨h, by rw [h2, h3]⟩

/-- C4: the displayed yield is `100 * total_profit / count` when the
Validated Record set is non-empty and `0` when it is empty, with the
division guarded by the count test of line 113. -/
theorem C4_yield : ∀ rows : List Row,
    (total_predicciones rows ≠ 0 →
      yield_pct rows = 100 * total_unidades rows / (total_predicciones rows : ℚ)) ∧
    (total_predicciones rows = 0 → yield_pct rows = 0) := by
  intro rows
  constructor
  · intro h
    unfold yield_pct yield_total
    rw [if_pos h, mul_div_assoc]
  · intro h
    unfold yield_pct yield_total
    rw [if_neg (by simp [h])]
    exact mul_zero 100

/-- C4 witness: the yield theorem applied at the non-empty `ejPF1`. -/
theorem C4_witness :
    total_predicciones ejPF1 ≠ 0 ∧
    yield_pct ejPF1 = 100 * total_unidades ejPF1 / (total_predicciones ejPF1 : ℚ) :=
  ⟨by with_unfolding_all decide, (C4_yield ejPF1).1 (by with_unfolding_all decide)⟩

/-- C8: a league filter that is unset (no league column detected) or an
empty multiselect keeps every record — it is never read as "exclude
all". -/
theorem C8_liga : ∀ rows : List Row,
    filtroLiga none rows = rows ∧ filtroLiga (some []) rows = rows := by
  intro rows
  exact ⟨rfl, by simp [filtroLiga]⟩

/-- C9: an unloadable/unparseable source is surfaced as an explicit
warning and yields the empty record set downstream, while a successful
load passes its rows through unchanged. -/
theorem C9_carga : ∀ e : String,
    (cargar_datos (Except.error e)).df = [] ∧
    (cargar_datos (Except.error e)).warning.isSome = true ∧
    ∀ (rows : List Row) (fcol : Option String),
      (cargar_datos (Except.ok (rows, fcol))).df = rows := by
  intro e
  exact ⟨rfl, rfl, fun rows fcol => rfl⟩

/-- C2 counterexample: a record with status "pending" and a present profit
value is counted by the KPI computations (it is a Validated Record of the
code), contradicting the claim that only `status == "completed"` records
enter KPI math. -/
theorem C2_cx :
    rowPendiente.status = "pending" ∧ rowPendiente.profit.isSome = true ∧
    total_predicciones [rowPendiente] = 1 ∧ total_unidades [rowPendiente] = 5 := by
  with_unfolding_all decide

/-- C2 (amended): the records entering the KPI computations are exactly
the filtered records with a present profit — status is never consulted —
and every filtered record, with or without profit, appears in the history
listing. -/
theorem C2_validadas : ∀ (rows : List Row) (r : Row),
    (r ∈ df_validadas rows ↔ r ∈ rows ∧ r.profit.isSome = true) ∧
    (r ∈ rows → r ∈ df_ordenado true rows) := by
  intro rows r
  constructor
  · exact List.mem_filter
  · intro h
    unfold df_ordenado
    simpa using h

/-- C2 witness: the amended theorem applied at the pending-status row. -/
theorem C2_witness :
    (rowPendiente ∈ df_validadas [rowPendiente] ↔
      rowPendiente ∈ [rowPendiente] ∧ rowPendiente.profit.isSome = true) ∧
    rowPendiente ∈ df_ordenado true [rowPendiente] :=
  ⟨(C2_validadas [rowPendiente] rowPendiente).1,
   (C2_validadas [rowPendiente] rowPendiente).2 (List.mem_singleton.mpr rfl)⟩

/-- C3 counterexample: with no result column, a record with no result, no
prediction and positive profit is counted as a hit by the code (profit
sign), while the claim's derivation (correctness column, else normalized
outcome comparison, else unknown) leaves its hit unknown — so it should
count in neither. -/
theorem C3_cx :
    aciertos_totales false [rowSinResultado] = 1 ∧
    spec_hit rowSinResultado = none ∧
    rowSinResultado.resultado = none := by
  with_unfolding_all decide

/-- C3 (amended): the tri-state behind the hit/miss counts is derived from
the result column's membership in the win/miss marker sets when a result
column is detected, and otherwise from the sign of profit; hits and misses
count `some true` / `some false` respectively, and records with unknown
hit are counted in neither. -/
theorem C3_tristate : ∀ (hasResult : Bool) (rows : List Row),
    aciertos_totales hasResult rows =
      (df_validadas rows).countP (fun r => hitState hasResult r == some true) ∧
    fallos_totales hasResult rows =
      (df_validadas rows).countP (fun r => hitState hasResult r == some false) ∧
    aciertos_totales hasResult rows + fallos_totales hasResult rows ≤
      (df_validadas rows).length := by
  intro hr rows
  have hA : aciertos_totales hr rows =
      (df_validadas rows).countP (fun r => hitState hr r == some true) := by
    cases hr with
    | true =>
      unfold aciertos_totales
      rw [if_pos rfl]
      apply List.countP_congr
      intro r _
      cases hw : containsOpt winMarkers r.resultado with
      | true => simp [hitState, hw]
      | false =>
        cases hl : containsOpt lossMarkers r.resultado <;> simp [hitState, hw, hl]
    | false =>
      unfold aciertos_totales
      rw [if_neg (by simp)]
      apply List.countP_congr
      intro r _
      cases hp : r.profit with
      | none => simp [hitState, hp]
      | some q =>
        by_cases h0 : 0 < q
        · simp [hitState, hp, h0]
        · by_cases h1 : q < 0 <;> simp [hitState, hp, h0, h1]
  have hB : fallos_totales hr rows =
      (df_validadas rows).countP (fun r => hitState hr r == some false) := by
    cases hr with
    | true =>
      unfold fallos_totales
      rw [if_pos rfl]
      apply List.countP_congr
      intro r _
      cases hw : containsOpt winMarkers r.resultado with
      | true =>
        have hl := winMarkers_not_lossMarkers r.resultado hw
        simp [hitState, hw, hl]
      | false =>
        cases hl : containsOpt lossMarkers r.resultado <;> simp [hitState, hw, hl]
    | false =>
      unfold fallos_totales
      rw [if_neg (by simp)]
      apply List.countP_congr
      intro r _
      cases hp : r.profit with
      | none => simp [hitState, hp]
      | some q =>
        by_cases h0 : 0 < q
        · have h1 : ¬ q < 0 := lt_asymm h0
          simp [hitState, hp, h0, h1]
        · by_cases h1 : q < 0 <;> simp [hitState, hp, h0, h1]
  refine ⟨hA, hB, ?_⟩
  rw [hA, hB]
  apply countP_disjoint_le
  intro a ha
  cases hhs : hitState hr a with
  | none => simp [hhs] at ha
  | some b =>
    cases b with
    | true => simp [hhs]
    | false => simp [hhs] at ha

/-- C10: with a result column detected, no voided record (result
`Anulado`/`Void`/`Cancelled`) survives the filter pipeline, so none
reaches the KPI inputs, the rollup inputs, or the history listing. -/
theorem C10_anulados : ∀ (c : Ctx) (rows : List Row) (r : Row),
    c.hasResult = true →
    (r ∈ df_filtrado c rows → esAnulado r = false) ∧
    (r ∈ df_validadas (df_filtrado c rows) → esAnulado r = false) ∧
    (r ∈ dfValidadasFecha (df_filtrado c rows) → esAnulado r = false) ∧
    (r ∈ df_ordenado c.hasFecha (df_filtrado c rows) → esAnulado r = false) := by
  intro c rows r hres
  have base : r ∈ df_filtrado c rows → esAnulado r = false := by
    intro h
    unfold df_filtrado excluirAnulados at h
    rw [hres] at h
    simp only [if_true] at h
    have := List.of_mem_filter h
    simpa using this
  refine ⟨base, ?_, ?_, ?_⟩
  · intro h
    exact base (List.mem_of_mem_filter h)
  · intro h
    exact base (List.mem_of_mem_filter (List.mem_of_mem_filter h))
  · intro h
    apply base
    unfold df_ordenado at h
    cases hf : c.hasFecha with
    | true => rw [hf] at h; simpa using h
    | false => rw [hf] at h; simpa using h

/-- C10 witness: the theorem applied at a concrete context and record set
in which a non-voided record survives the pipeline. -/
theorem C10_witness :
    rowFiltrable ∈ df_filtrado ctx0 [rowFiltrable, rowAnulado] ∧
    esAnulado rowFiltrable = false := by
  have hmem : rowFiltrable ∈ df_filtrado ctx0 [rowFiltrable, rowAnulado] := by
    with_unfolding_all decide
  exact ⟨hmem, (C10_anulados ctx0 [rowFiltrable, rowAnulado] rowFiltrable rfl).1 hmem⟩

/-- C5: the weekly rollup's weeks are in ascending (chronological) order,
its cumulative column at each index is the sum of the weekly units up to
and including that index (one accumulator initialized at zero, never
reset), and the weekly profits `[3, -1, 2]` produce the cumulative series
`[3, 2, 4]`. -/
theorem C5_semanal :
    (∀ rows : List Row,
      List.Sorted (· ≤ ·) ((resumen_semanal rows).map (fun e => e.1)) ∧
      ∀ (i : Nat) (h : i < (resumen_semanal rows).length),
        ((resumen_semanal rows).get ⟨i, h⟩).2.2 =
          (((resumen_semanal rows).take (i + 1)).map (fun e => e.2.1)).sum) ∧
    resumen_semanal ejSemanas = [(739191, 3, 3), (739198, -1, 2), (739205, 2, 4)] := by
  constructor
  · intro rows
    constructor
    · unfold resumen_semanal
      rw [cumsumAux_map_fst, List.map_map]
      have hcmp : ((fun e : Nat × ℚ => e.1) ∘
          fun kg : Nat × List Row => (kg.1, sumProfits kg.2)) =
          fun kg : Nat × List Row => kg.1 := rfl
      rw [hcmp]
      exact groupAgg_keys_sorted _ _
    · intro i h
      unfold resumen_semanal at h ⊢
      have h2 := cumsumAux_get ((groupAgg semanaKeyRow (dfValidadasFecha rows)).map
        (fun kg => (kg.1, sumProfits kg.2))) 0 i h
      rw [zero_add] at h2
      exact h2
  · with_unfolding_all decide

/-- C5 witness: the theorem applied to the `[3, -1, 2]` example at its
last week. -/
theorem C5_witness :
    2 < (resumen_semanal ejSemanas).length ∧
    ((resumen_semanal ejSemanas).get ⟨2, by with_unfolding_all decide⟩).2.2 =
      (((resumen_semanal ejSemanas).take 3).map (fun e => e.2.1)).sum :=
  ⟨by with_unfolding_all decide,
   (C5_semanal.1 ejSemanas).2 2 (by with_unfolding_all decide)⟩

/-- C6 counterexample: in a month holding one win-marker record and one
record with the unrecognized result "Push" (unknown hit), the monthly
bucket reports 1 miss, although no record of the set has `hit == false`:
the monthly `fallos` column is `count - hits`, not the count of known
misses. -/
theorem C6_cx :
    (resumen_mensual ejMesCx).map (fun e => e.fallos) = [1] ∧
    (df_validadas ejMesCx).countP (fun r => hitState true r == some false) = 0 := by
  constructor
  · with_unfolding_all decide
  · with_unfolding_all decide

/-- C6 (amended): the monthly rollup groups Validated Records by the first
day of their calendar month in ascending month order, and per bucket
reports the record count, the profit sum, the win-marker hit count,
`fallos = count - hits` (records with unknown hit are counted as misses,
unlike the scalar misses KPI), and the yield `units / count * 100` — the
scalar yield formula per group; two same-month records with profits `+2`
and `-1` produce count 2, total profit 1 and yield 50. -/
theorem C6_mensual :
    (∀ rows : List Row,
      List.Sorted (· ≤ ·) ((resumen_mensual rows).map (fun e => e.mes)) ∧
      ∀ e ∈ resumen_mensual rows,
        (∃ r ∈ dfValidadasFecha rows, mesKeyRow r = e.mes) ∧
        e.predicciones = ((dfValidadasFecha rows).filter
          (fun r => mesKeyRow r = e.mes)).countP (fun r => r.profit.isSome) ∧
        e.unidades = sumProfits ((dfValidadasFecha rows).filter
          (fun r => mesKeyRow r = e.mes)) ∧
        e.aciertos = ((dfValidadasFecha rows).filter
          (fun r => mesKeyRow r = e.mes)).countP
            (fun r => containsOpt winMarkers r.resultado) ∧
        e.fallos = e.predicciones - e.aciertos ∧
        e.yieldPct = e.unidades / (e.predicciones : ℚ) * 100) ∧
    resumen_mensual ejMes = [⟨739251, 2, 1, 1, 1, 50⟩] := by
  constructor
  · intro rows
    constructor
    · unfold resumen_mensual
      rw [List.map_map]
      have hcmp : ((fun e : MRow => e.mes) ∘ fun kg : Nat × List Row =>
          { mes := kg.1,
            predicciones := kg.2.countP (fun r => r.profit.isSome),
            unidades := sumProfits kg.2,
            aciertos := kg.2.countP (fun r => containsOpt winMarkers r.resultado),
            fallos := kg.2.countP (fun r => r.profit.isSome) -
              kg.2.countP (fun r => containsOpt winMarkers r.resultado),
            yieldPct := sumProfits kg.2 /
              (kg.2.countP (fun r => r.profit.isSome) : ℚ) * 100 : MRow }) =
          fun kg : Nat × List Row => kg.1 := rfl
      rw [hcmp]
      exact groupAgg_keys_sorted _ _
    · intro e he
      unfold resumen_mensual at he
      obtain ⟨kg, hkg, rfl⟩ := List.mem_map.mp he
      obtain ⟨⟨r, hr, hrk⟩, h2⟩ := groupAgg_mem _ _ _ hkg
      refine ⟨⟨r, hr, hrk⟩, ?_, ?_, ?_, rfl, rfl⟩
      · show kg.2.countP (fun r => r.profit.isSome) = _
        rw [h2]
      · show sumProfits kg.2 = _
        rw [h2]
      · show kg.2.countP (fun r => containsOpt winMarkers r.resultado) = _
        rw [h2]
  · have h : groupAgg mesKeyRow (dfValidadasFecha ejMes) =
        [(739251, dfValidadasFecha ejMes)] := by
      with_unfolding_all decide
    rw [resumen_mensual, h]
    simp only [List.map]
    refine congrArg₂ _ ?_ rfl
    have h1 : (dfValidadasFecha ejMes).countP (fun r => r.profit.isSome) = 2 := by
      with_unfolding_all decide
    have h2 : sumProfits (dfValidadasFecha ejMes) = 1 := by
      with_unfolding_all decide
    have h3 : (dfValidadasFecha ejMes).countP
        (fun r => containsOpt winMarkers r.resultado) = 1 := by
      with_unfolding_all decide
    simp only [h1, h2, h3]
    norm_num

/-- C6 witness: the amended theorem applied to the same-month `+2`/`-1`
example at its unique bucket. -/
theorem C6_witness :
    (⟨739251, 2, 1, 1, 1, 50⟩ : MRow) ∈ resumen_mensual ejMes ∧
    (⟨739251, 2, 1, 1, 1, 50⟩ : MRow).predicciones =
      ((dfValidadasFecha ejMes).filter
        (fun r => mesKeyRow r = (⟨739251, 2, 1, 1, 1, 50⟩ : MRow).mes)).countP
          (fun r => r.profit.isSome) := by
  have hmem : (⟨739251, 2, 1, 1, 1, 50⟩ : MRow) ∈ resumen_mensual ejMes := by
    rw [C6_mensual.2]
    exact List.mem_singleton.mpr rfl
  exact ⟨hmem, ((C6_mensual.1 ejMes).2 _ hmem).2.1⟩

/-- C7: the date, team, league and (spec-modelled) status predicates
combine conjunctively — a record is kept iff it satisfies all four — and
applying the four single-predicate filters in any order produces the same
record set. -/
theorem C7_filtros : ∀ (c : Ctx) (st : Option String) (rows : List Row),
    pipelineFiltros c st rows = rows.filter
      (fun r => predFecha c r && predEquipo c r && predLiga c.ligas r && predStatus st r) ∧
    ∀ ps : List (Row → Bool),
      ps.Perm [predFecha c, predEquipo c, predLiga c.ligas, predStatus st] →
      aplicarFiltros ps rows = pipelineFiltros c st rows := by
  intro c st rows
  have hpipe : pipelineFiltros c st rows =
      aplicarFiltros [predFecha c, predEquipo c, predLiga c.ligas, predStatus st] rows := by
    show filtroStatus st (filtroLiga c.ligas (filtroEquipo c (filtroFecha c rows))) = _
    rw [filtroFecha_eq, filtroEquipo_eq, filtroLiga_eq, filtroStatus_eq]
    rfl
  constructor
  · rw [hpipe, aplicarFiltros_eq]
    apply List.filter_congr
    intro r _
    cases hpf : predFecha c r <;> cases hpe : predEquipo c r <;>
      cases hpl : predLiga c.ligas r <;> cases hps : predStatus st r <;>
      simp [hpf, hpe, hpl, hps]
  · intro ps hperm
    rw [aplicarFiltros_eq, hpipe, aplicarFiltros_eq]
    apply List.filter_congr
    intro r _
    exact all_of_perm hperm r

/-- C7 witness: the theorem applied at a concrete context, with the date
and team predicates swapped. -/
theorem C7_witness :
    [predEquipo ctx0, predFecha ctx0, predLiga ctx0.ligas,
      predStatus (some "completed")].Perm
      [predFecha ctx0, predEquipo ctx0, predLiga ctx0.ligas,
        predStatus (some "completed")] ∧
    aplicarFiltros [predEquipo ctx0, predFecha ctx0, predLiga ctx0.ligas,
        predStatus (some "completed")] [rowFiltrable, rowAnulado] =
      pipelineFiltros ctx0 (some "completed") [rowFiltrable, rowAnulado] := by
  have hperm := List.Perm.swap (predFecha ctx0) (predEquipo ctx0)
    [predLiga ctx0.ligas, predStatus (some "completed")]
  exact ⟨hperm,
    (C7_filtros ctx0 (some "completed") [rowFiltrable, rowAnulado]).2 _ hperm⟩

end Futbet
